import Mathlib

/-
Verification of `silent_print/utils/print_format.py`.

The Python module is embedded shallowly:

* Python dicts used as option mappings become the function type
  `Options := String → Option OptVal`; `d[k] = v`, `d.pop(k, ...)` and
  `d.update(e)` become `oset`, `opop` and `oupdate`.  Iteration order over
  the updating dict is kept by representing update payloads as lists of
  key/value pairs in source order.
* Python truthiness of option values is `truthy`; `x or d` on
  configuration strings is `pyOr`.
* The external collaborators (the frappe helper `read_options_from_html`, the
  wkhtmltopdf engine driven through pdfkit, the PyPDF2 reader and writer and
  PyMuPDF) are black boxes per the spec; they enter as parameters:
  the extraction result `html_options`, the engine outcome
  `EngineResult`, a page parser, a writer serializer, and a `FitzModule`
  record of fallible operations.
-/

/-- Values stored in an options mapping: strings, booleans, the Python
`None` value (a flag present with no value), and the cookie list set by
`prepare_options`. -/
inductive OptVal where
  | s (v : String)
  | b (v : Bool)
  | null
  | cookies (l : List (String × String))
deriving DecidableEq, Repr

/-- A Python dict of pdf options, as a partial map from keys to values. -/
def Options := String → Option OptVal

/-- The empty dict. -/
def oempty : Options := fun _ => none

/-- Python `d[k] = v`. -/
def oset (o : Options) (k : String) (v : OptVal) : Options :=
  fun q => if q = k then some v else o q

/-- Python `d.pop(k, default)`, keeping only the removal effect; the returned
value is read off separately with lookup. -/
def opop (o : Options) (k : String) : Options :=
  fun q => if q = k then none else o q

/-- Python `d.update(e)` where `e` is given as its item list in iteration order. -/
def oupdate (o : Options) (l : List (String × OptVal)) : Options :=
  l.foldl (fun o kv => oset o kv.1 kv.2) o

/-- A dict literal. -/
def ofList (l : List (String × OptVal)) : Options :=
  oupdate oempty l

/-- Python truthiness of an option value: empty string, `False`, `None`
and the empty list are falsy. -/
def truthy : OptVal → Bool
  | .s v => if v = "" then false else true
  | .b v => v
  | .null => false
  | .cookies l => !l.isEmpty

/-- Truthiness of a lookup result: a missing key is falsy. -/
def truthyO : Option OptVal → Bool
  | some v => truthy v
  | none => false

/-- Whether the character list `s` starts with `p`. -/
def startsWithL : List Char → List Char → Bool
  | [], _ => true
  | _ :: _, [] => false
  | p :: ps, c :: cs => p == c && startsWithL ps cs

/-- Whether `pat` occurs as a contiguous sublist of `s`. -/
def hasSubL (pat : List Char) : List Char → Bool
  | [] => pat.isEmpty
  | c :: cs => startsWithL pat (c :: cs) || hasSubL pat cs

/-- Embedding of the Python `pat in s` substring test. -/
def strContains (s pat : String) : Bool :=
  hasSubL pat.data s.data

/-- Embedding of Python `key.lower()`, character-wise (the option keys involved are
ASCII). -/
def lowerStr (s : String) : String :=
  ⟨s.data.map Char.toLower⟩

/-- Embedding of Python `x or default` on an optional configuration string: `None`
and the empty string fall back to the default. -/
def pyOr (o : Option String) (d : String) : String :=
  match o with
  | some s => if s = "" then d else s
  | none => d

/- ## Height Estimator -/

/-- The tunable table `RECEIPT_HEIGHT_CONFIG` (all heights in mm). -/
structure ReceiptHeightConfig where
  header_height : Nat
  customer_height : Nat
  item_height : Nat
  totals_height : Nat
  payment_base_height : Nat
  payment_line_height : Nat
  footer_height : Nat
  buffer_height : Nat
  min_height : Nat
  max_height : Nat

/-- Source constants: 10, 8, 8, 20, 10, 5, 12, 5, 60, 500. -/
def RECEIPT_HEIGHT_CONFIG : ReceiptHeightConfig :=
  ⟨10, 8, 8, 20, 10, 5, 12, 5, 60, 500⟩

/-- A line item; only its `discount_percentage` field is read
(`item.get("discount_percentage")`, truthiness-tested). -/
structure ReceiptItem where
  discount_percentage : Option ℚ
deriving DecidableEq

/-- The document read by the estimator: `items` and `payments` sequences
(payment records carry no field that is read). -/
structure ReceiptDoc where
  items : List ReceiptItem
  payments : List Unit
deriving DecidableEq

/-- Truthiness of `item.get("discount_percentage")`: absent and zero are
falsy. -/
def discountTruthy (o : Option ℚ) : Bool :=
  match o with
  | some q => decide (q ≠ 0)
  | none => false

/-- Embedding of `calculate_receipt_height(doc)`; `none` is Python
`doc = None` (`... if doc else 0`). -/
def calculate_receipt_height (doc : Option ReceiptDoc) : Nat :=
  let config := RECEIPT_HEIGHT_CONFIG
  let height := config.header_height + config.customer_height
  let items_count := match doc with
    | some d => d.items.length
    | none => 0
  let items_with_discount := match doc with
    | some d => (d.items.filter (fun it => discountTruthy it.discount_percentage)).length
    | none => 0
  let height := height + items_count * config.item_height + items_with_discount * 2
  let height := height + config.totals_height
  let payments_count := match doc with
    | some d => d.payments.length
    | none => 0
  let height := if payments_count > 0 then
      height + config.payment_base_height + payments_count * config.payment_line_height
    else height
  let height := height + config.footer_height
  let height := height + config.buffer_height
  max config.min_height (min height config.max_height)

/- ## Page Option Builder -/

/-- The fields of a `Silent Print Format` document that
`get_pdf_options` reads. -/
structure SilentPrintFormat where
  page_size : Option String
  custom_width : Option String
  custom_height : Option String
  auto_height : Bool
deriving DecidableEq

/-- The recognized unit markers of the builder. -/
def UNIT_MARKERS : List String := ["mm", "cm", "in", "px"]

/-- Whether a width/height string contains one of the unit markers
anywhere as a substring (`any(u in str(w) for u in [...])`). -/
def hasUnitMarker (s : String) : Bool :=
  UNIT_MARKERS.any (fun u => strContains s u)

/-- The inline normalization
`if w and not any(u in str(w) for u in units): w = f"{w}mm"`. -/
def ensure_units (s : String) : String :=
  if s ≠ "" ∧ hasUnitMarker s = false then s ++ "mm" else s

/-- Stated from the words of the spec, for comparison with `hasUnitMarker`:
a recognized unit SUFFIX is present, i.e. the string ends with one of
the unit markers.  The source instead tests substring containment
anywhere in the string. -/
def specUnitSuffix (s : String) : Bool :=
  UNIT_MARKERS.any (fun u => startsWithL u.data.reverse s.data.reverse)

/-- Embedding of `get_pdf_options(silent_print_format, doc)`. -/
def get_pdf_options (fmt : SilentPrintFormat) (doc : Option ReceiptDoc) : Options :=
  let options := ofList [("page-size", .s (pyOr fmt.page_size "A4"))]
  if fmt.page_size = some "Custom" then
    let custom_width := pyOr fmt.custom_width "80mm"
    let custom_height :=
      if fmt.auto_height ∧ doc.isSome then
        toString (calculate_receipt_height doc) ++ "mm"
      else pyOr fmt.custom_height "297mm"
    let custom_width := ensure_units custom_width
    let custom_height := ensure_units custom_height
    ofList
      [("page-width", .s custom_width),
       ("page-height", .s custom_height),
       ("margin-top", .s "0mm"),
       ("margin-bottom", .s "0mm"),
       ("margin-left", .s "0mm"),
       ("margin-right", .s "0mm"),
       ("dpi", .s "203"),
       ("zoom", .s "1"),
       ("no-pdf-compression", .s ""),
       ("_is_thermal", .b true)]
  else options

/- ## HTML Option Reader and Merger -/

/-- The filter of the thermal merge loop:
`"margin" in key.lower() or "page" in key.lower()`; such a directive is
dropped when the options are thermal. -/
def thermalRelevant (k : String) : Bool :=
  strContains (lowerStr k) "margin" || strContains (lowerStr k) "page"

/-- The `thermal_settings` capture of `prepare_options`, taken on the
options after the `_is_thermal` pop and before any update: margins
default to `"0mm"`, the other lookups default to Python `None`. -/
def thermalSettings (o : Options) : List (String × OptVal) :=
  [("margin-top", (o "margin-top").getD (.s "0mm")),
   ("margin-bottom", (o "margin-bottom").getD (.s "0mm")),
   ("margin-left", (o "margin-left").getD (.s "0mm")),
   ("margin-right", (o "margin-right").getD (.s "0mm")),
   ("page-width", (o "page-width").getD .null),
   ("page-height", (o "page-height").getD .null),
   ("dpi", (o "dpi").getD .null),
   ("zoom", (o "zoom").getD .null)]

/-- The unconditional injection of `prepare_options`. -/
def baseInjection : List (String × OptVal) :=
  [("print-media-type", .null),
   ("background", .null),
   ("images", .null),
   ("quiet", .null),
   ("encoding", .s "UTF-8")]

/-- The non-thermal 15mm default margins, filled on any side whose
current value is falsy, in source order right, left, top, bottom. -/
def defaultMargins (o : Options) : Options :=
  let o := if truthyO (o "margin-right") then o else oset o "margin-right" (.s "15mm")
  let o := if truthyO (o "margin-left") then o else oset o "margin-left" (.s "15mm")
  let o := if truthyO (o "margin-top") then o else oset o "margin-top" (.s "15mm")
  if truthyO (o "margin-bottom") then o else oset o "margin-bottom" (.s "15mm")

/-- The thermal branch of the HTML merge: apply only directives whose
key references neither margin nor page settings. -/
def thermalHtmlMerge (o : Options) (l : List (String × OptVal)) : Options :=
  l.foldl (fun o kv => if thermalRelevant kv.1 then o else oset o kv.1 kv.2) o

/-- Embedding of `prepare_options(html, options)`.

`read_options_from_html` is an external frappe helper (a black box per
the spec); it is represented by its result: `html_options` is the
directive mapping it extracted, in iteration order, and the rewritten
HTML string it returns is passed through unchanged, so it is not
modelled.  The parameter `sid` models the
`if frappe.session and frappe.session.sid:` guard: `some s` is a truthy
session id, `none` covers no session or a falsy sid.  The
`if not options: options = {}` and `if html_options:` guards are
semantic no-ops in this model (an empty map stays an empty map, and
both merge branches fix the empty list) and are dropped. -/
def prepare_options (options : Options) (html_options : List (String × OptVal))
    (sid : Option String) : Options :=
  let is_thermal := truthy ((options "_is_thermal").getD (.b false))
  let options := opop options "_is_thermal"
  let thermal_settings := if is_thermal then thermalSettings options else []
  let options := oupdate options baseInjection
  let options := if is_thermal then options else defaultMargins options
  let options :=
    if is_thermal then thermalHtmlMerge options html_options
    else oupdate options html_options
  let options := if is_thermal then oupdate options thermal_settings else options
  match sid with
  | some s => oset options "cookie" (.cookies [("sid", s)])
  | none => options

/- ## PDF Renderer -/

/-- PyPDF2 pages are opaque; a page is identified by a code. -/
abbrev PdfPage := Nat

/-- A `PdfWriter`: its appended pages, and the password it was
encrypted with, if `encrypt` was called. -/
structure PdfWriter where
  pages : List PdfPage
  encryptedWith : Option OptVal
deriving DecidableEq

/-- Outcome of the `pdfkit.from_string` invocation: either the returned
byte string, or a raised `OSError` with its message.  `produced` records
the bytes the engine process emitted before failing; Python discards
them (the raising call never assigns `filedata`). -/
inductive EngineResult where
  | ok (filedata : List Nat)
  | raises (msg : String) (produced : List Nat)

/-- Result of `get_pdf`: serialized bytes (fresh-writer path), the
returned accumulator (output path), a `frappe.throw` with its message,
or a re-raised engine exception. -/
inductive GetPdfResult where
  | bytes (b : List Nat)
  | writer (w : PdfWriter)
  | thrown (msg : String)
  | raised (msg : String)
deriving DecidableEq

/-- The `PDF_CONTENT_ERRORS` substrings. -/
def PDF_CONTENT_ERRORS : List String :=
  ["ContentNotFoundError", "ContentOperationNotPermittedError",
   "UnknownContentError", "RemoteHostClosedError"]

/-- The options mapping as it stands at the engine invocation inside
`get_pdf`: after `prepare_options`, the javascript/local-file-access
disables, and the version-gated smart-shrinking disable
(`smart_shrinking_gate` is `LooseVersion(get_wkhtmltopdf_version()) >
LooseVersion("0.12.3")`, an external version query). -/
def engine_options (options : Options) (html_options : List (String × OptVal))
    (sid : Option String) (smart_shrinking_gate : Bool) : Options :=
  let o := prepare_options options html_options sid
  let o := oupdate o [("disable-javascript", .s ""), ("disable-local-file-access", .s "")]
  if smart_shrinking_gate then oupdate o [("disable-smart-shrinking", .s "")] else o

/-- Embedding of `get_pdf(html, options, output)`.

The engine is the black-box parameter `engine`, invoked on the final
options; `parse` is the `PdfReader` byte-to-pages view and `serialize` is
`get_file_data_from_writer`.  When the engine raises, `filedata` still
holds its initial `""` (the raising assignment never completed), so on a
recognized content error the `if not filedata` guard always holds and
`frappe.throw` fires: the partial-output branches below that guard are
unreachable.  On success with an accumulator, pages are appended and the
accumulator itself is returned; encryption happens only on the
fresh-writer path, when a `password` key is present. -/
def get_pdf (options : Options) (html_options : List (String × OptVal))
    (sid : Option String) (smart_shrinking_gate : Bool)
    (engine : Options → EngineResult)
    (parse : List Nat → List PdfPage) (serialize : PdfWriter → List Nat)
    (output : Option PdfWriter) : GetPdfResult :=
  let opts := engine_options options html_options sid smart_shrinking_gate
  match engine opts with
  | .raises msg _produced =>
    if PDF_CONTENT_ERRORS.any (fun e => strContains msg e) then
      .thrown "PDF generation failed because of broken image links"
    else
      .raised msg
  | .ok filedata =>
    let pages := parse filedata
    match output with
    | some w => .writer { w with pages := w.pages ++ pages }
    | none =>
      let writer : PdfWriter := { pages := pages, encryptedWith := none }
      let writer :=
        match opts "password" with
        | some pw => { writer with encryptedWith := some pw }
        | none => writer
      .bytes (serialize writer)

/- ## Whitespace Cropper -/

/-- A PyMuPDF rectangle `(x0, y0, x1, y1)`; coordinates are modelled as
rationals. -/
structure Rect where
  x0 : ℚ
  y0 : ℚ
  x1 : ℚ
  y1 : ℚ
deriving DecidableEq

/-- Embedding of the PyMuPDF `rect.height` property. -/
def Rect.height (r : Rect) : ℚ := r.y1 - r.y0

/-- A line of a text block; `bbox` may be absent (`"bbox" in line`). -/
structure FitzLine where
  bbox : Option Rect
deriving DecidableEq

/-- A text block from `page.get_text("dict")["blocks"]`: an optional
`bbox` and, failing that, optional nested `lines`. -/
structure FitzBlock where
  bbox : Option Rect
  lines : Option (List FitzLine)
deriving DecidableEq

/-- A PyMuPDF page: its rectangle, its text blocks, and the crop box
written by `set_cropbox` (absent while untouched). -/
structure FitzPage where
  rect : Rect
  blocks : List FitzBlock
  cropbox : Option Rect
deriving DecidableEq

/-- The `max_y` scan of the crop loop: the maximum content bottom over
blocks, descending into lines when a block has no `bbox`; starts at 0. -/
def contentMaxY (blocks : List FitzBlock) : ℚ :=
  blocks.foldl
    (fun m b =>
      match b.bbox with
      | some r => max m r.y1
      | none =>
        match b.lines with
        | some ls => ls.foldl
            (fun m l => match l.bbox with
              | some r => max m r.y1
              | none => m) m
        | none => m)
    0

/-- The per-page body of the crop loop of `crop_pdf_whitespace`: skip a
page without blocks; otherwise, when content was found (`max_y > 0`),
add the 15-point buffer and rewrite the crop box only if the remaining
whitespace exceeds 20 points. -/
def cropPage (page : FitzPage) : FitzPage :=
  if page.blocks.isEmpty then page
  else
    let max_y := contentMaxY page.blocks
    if 0 < max_y then
      let max_y := max_y + 15
      let rect := page.rect
      if 20 < rect.height - max_y then
        { page with cropbox := some ⟨rect.x0, rect.y0, rect.x1, max_y⟩ }
      else page
    else page

/-- The PyMuPDF surface used by `crop_pdf_whitespace`, as a black box:
`openDoc` is `fitz.open` plus the per-page `get_text("dict")` extraction
and `tobytes` is `Document.tobytes`; each may raise (`Except.error`). -/
structure FitzModule where
  openDoc : List Nat → Except String (List FitzPage)
  tobytes : List FitzPage → Except String (List Nat)

/-- Embedding of `crop_pdf_whitespace(pdf_bytes)`.  `fitz = none` is the
`ImportError` path (PyMuPDF not installed); any raise inside the `try`
block is caught and the original bytes are returned. -/
def crop_pdf_whitespace (fitz : Option FitzModule) (pdf_bytes : List Nat) : List Nat :=
  match fitz with
  | none => pdf_bytes
  | some f =>
    match f.openDoc pdf_bytes with
    | .error _ => pdf_bytes
    | .ok pages =>
      match f.tobytes (pages.map cropPage) with
      | .error _ => pdf_bytes
      | .ok out => out

/-- The failure condition of claim C3: the import failed, content
inspection raised, or serialization raised. -/
def cropFails (fitz : Option FitzModule) (pdf_bytes : List Nat) : Prop :=
  match fitz with
  | none => True
  | some f =>
    match f.openDoc pdf_bytes with
    | .error _ => True
    | .ok pages => ∃ e, f.tobytes (pages.map cropPage) = .error e

/- ## Helper lemmas -/

theorem oset_apply (o : Options) (k : String) (v : OptVal) (q : String) :
    oset o k v q = if q = k then some v else o q := rfl

theorem opop_apply (o : Options) (k : String) (q : String) :
    opop o k q = if q = k then none else o q := rfl

theorem oupdate_nil (o : Options) : oupdate o [] = o := rfl

theorem oupdate_cons (o : Options) (p : String × OptVal) (t : List (String × OptVal)) :
    oupdate o (p :: t) = oupdate (oset o p.1 p.2) t := rfl

theorem oupdate_apply_notin (l : List (String × OptVal)) (o : Options) (q : String)
    (h : ∀ p ∈ l, p.1 ≠ q) : oupdate o l q = o q := by
  induction l generalizing o with
  | nil => rfl
  | cons p t ih =>
    rw [oupdate_cons, ih _ (fun r hr => h r (List.mem_cons_of_mem _ hr))]
    rw [oset_apply, if_neg (fun hq => h p (List.mem_cons_self _ _) hq.symm)]

theorem thermalHtmlMerge_nil (o : Options) : thermalHtmlMerge o [] = o := rfl

theorem thermalHtmlMerge_cons (o : Options) (p : String × OptVal)
    (t : List (String × OptVal)) :
    thermalHtmlMerge o (p :: t) =
      thermalHtmlMerge (if thermalRelevant p.1 then o else oset o p.1 p.2) t := rfl

theorem thermalHtmlMerge_apply_of_relevant (l : List (String × OptVal)) (o : Options)
    (q : String) (hq : thermalRelevant q = true) : thermalHtmlMerge o l q = o q := by
  induction l generalizing o with
  | nil => rfl
  | cons p t ih =>
    rw [thermalHtmlMerge_cons, ih]
    by_cases hp : thermalRelevant p.1 = true
    · rw [if_pos hp]
    · rw [if_neg (by simpa using hp), oset_apply,
        if_neg (fun he : q = p.1 => hp (he ▸ hq))]

theorem thermalHtmlMerge_apply_notin (l : List (String × OptVal)) (o : Options)
    (q : String) (h : ∀ p ∈ l, p.1 ≠ q) : thermalHtmlMerge o l q = o q := by
  induction l generalizing o with
  | nil => rfl
  | cons p t ih =>
    rw [thermalHtmlMerge_cons, ih _ (fun r hr => h r (List.mem_cons_of_mem _ hr))]
    by_cases hp : thermalRelevant p.1 = true
    · rw [if_pos hp]
    · rw [if_neg (by simpa using hp), oset_apply,
        if_neg (fun hq => h p (List.mem_cons_self _ _) hq.symm)]

theorem relevant_ne (k c : String) (hk : thermalRelevant k = true)
    (hc : thermalRelevant c = false) : k ≠ c :=
  fun h => absurd ((h ▸ hc).symm.trans hk) (by decide)

theorem oupdate_baseInjection_apply (base : Options) (q : String) :
    oupdate base baseInjection q =
      if q = "encoding" then some (.s "UTF-8")
      else if q = "quiet" then some .null
      else if q = "images" then some .null
      else if q = "background" then some .null
      else if q = "print-media-type" then some .null
      else base q := rfl

theorem oupdate_thermalSettings_apply (o base : Options) (q : String) :
    oupdate base (thermalSettings o) q =
      if q = "zoom" then some ((o "zoom").getD .null)
      else if q = "dpi" then some ((o "dpi").getD .null)
      else if q = "page-height" then some ((o "page-height").getD .null)
      else if q = "page-width" then some ((o "page-width").getD .null)
      else if q = "margin-right" then some ((o "margin-right").getD (.s "0mm"))
      else if q = "margin-left" then some ((o "margin-left").getD (.s "0mm"))
      else if q = "margin-bottom" then some ((o "margin-bottom").getD (.s "0mm"))
      else if q = "margin-top" then some ((o "margin-top").getD (.s "0mm"))
      else base q := rfl

theorem defaultMargins_apply_ne (o : Options) (q : String)
    (h1 : q ≠ "margin-right") (h2 : q ≠ "margin-left")
    (h3 : q ≠ "margin-top") (h4 : q ≠ "margin-bottom") :
    defaultMargins o q = o q := by
  simp only [defaultMargins, apply_ite (fun f : Options => f q), oset_apply,
    h1, h2, h3, h4, if_false, ite_self]

theorem prepare_options_apply_thermal (options : Options)
    (html_options : List (String × OptVal)) (sid : Option String) (q : String)
    (hth : truthy ((options "_is_thermal").getD (.b false)) = true)
    (hq : q ≠ "cookie") :
    prepare_options options html_options sid q =
      oupdate
        (thermalHtmlMerge (oupdate (opop options "_is_thermal") baseInjection) html_options)
        (thermalSettings (opop options "_is_thermal")) q := by
  unfold prepare_options
  rw [hth]
  cases sid with
  | none => rfl
  | some s => exact if_neg hq

theorem prepare_options_apply_nonthermal (options : Options)
    (html_options : List (String × OptVal)) (sid : Option String) (q : String)
    (hth : truthy ((options "_is_thermal").getD (.b false)) = false)
    (hq : q ≠ "cookie") :
    prepare_options options html_options sid q =
      oupdate (defaultMargins (oupdate (opop options "_is_thermal") baseInjection))
        html_options q := by
  unfold prepare_options
  rw [hth]
  cases sid with
  | none => rfl
  | some s => exact if_neg hq

/- ## Claims -/

/-- C5: for every format configuration whose page size is not `"Custom"`,
`get_pdf_options` produces exactly the singleton mapping
`page-size ↦ (configured size, or "A4" when none is configured)`, with
no thermal keys. -/
theorem C5_noncustom_single_entry (fmt : SilentPrintFormat) (doc : Option ReceiptDoc)
    (h : fmt.page_size ≠ some "Custom") :
    get_pdf_options fmt doc = ofList [("page-size", .s (pyOr fmt.page_size "A4"))] := by
  rw [get_pdf_options, if_neg h]

/-- Witness for C5 at a Letter-size configuration. -/
theorem C5_noncustom_single_entry_witness :
    get_pdf_options ⟨some "Letter", none, none, false⟩ none
      = ofList [("page-size", OptVal.s "Letter")] :=
  C5_noncustom_single_entry ⟨some "Letter", none, none, false⟩ none (by decide)

/-- C6: a document with no items and no payments (or an absent document)
is estimated at exactly the configured minimum height, 60. -/
theorem C6_empty_doc_min_height (doc : Option ReceiptDoc)
    (h : doc = none ∨ ∃ d, doc = some d ∧ d.items = [] ∧ d.payments = []) :
    calculate_receipt_height doc = 60 := by
  rcases h with h | ⟨d, hd, hi, hp⟩
  · subst h; decide
  · subst hd
    obtain ⟨i, p⟩ := d
    simp only at hi hp
    subst hi; subst hp
    decide

/-- Witness for C6 at the empty document. -/
theorem C6_empty_doc_min_height_witness :
    calculate_receipt_height (some ⟨[], []⟩) = 60 :=
  C6_empty_doc_min_height (some ⟨[], []⟩) (Or.inr ⟨⟨[], []⟩, rfl, rfl, rfl⟩)

/-- C8 (amended): the builder appends `"mm"` exactly when no recognized
unit marker occurs anywhere in the string as a substring (not merely as
a suffix); a string containing a unit marker is left unchanged. -/
theorem C8_unit_normalization (s : String) :
    (s ≠ "" → hasUnitMarker s = false → ensure_units s = s ++ "mm") ∧
    (hasUnitMarker s = true → ensure_units s = s) := by
  constructor
  · intro h1 h2
    rw [ensure_units, if_pos ⟨h1, h2⟩]
  · intro h
    rw [ensure_units, if_neg (fun hc => by rw [h] at hc; exact absurd hc.2 (by decide))]

/-- Witness for C8: `"72"` gains a unit, `"80mm"` is unchanged. -/
theorem C8_unit_normalization_witness :
    ensure_units "72" = "72" ++ "mm" ∧ ensure_units "80mm" = "80mm" :=
  ⟨(C8_unit_normalization "72").1 (by decide) (by decide),
   (C8_unit_normalization "80mm").2 (by decide)⟩

/-- C8 counterexample: `"80mmx"` carries no recognized unit suffix, so
the claim requires `"mm"` to be appended, but the source tests substring
containment anywhere, finds `"mm"`, and leaves the string unchanged. -/
theorem C8_suffix_claim_cex :
    specUnitSuffix "80mmx" = false ∧ ensure_units "80mmx" = "80mmx" ∧
      ("80mmx" : String) ≠ "80mmx" ++ "mm" := by
  decide

/-- C9: appending items to a document (holding payments and all other
fields fixed) never decreases the estimated height, through the clamp. -/
theorem C9_height_monotone_items (d : ReceiptDoc) (extra : List ReceiptItem) :
    calculate_receipt_height (some d) ≤
      calculate_receipt_height (some { d with items := d.items ++ extra }) := by
  obtain ⟨di, dp⟩ := d
  simp only [calculate_receipt_height, List.length_append, List.filter_append,
    RECEIPT_HEIGHT_CONFIG]
  by_cases hp : dp.length > 0
  · simp only [if_pos hp]
    omega
  · simp only [if_neg hp]
    omega

/-- C1: when the options carry a truthy thermal marker, any
HTML-embedded directive whose key matches margin or page
(case-insensitive substring) leaves the merged value of that key at its
pre-merge value, never the HTML-supplied one. -/
theorem C1_thermal_protection (options : Options)
    (html_options : List (String × OptVal)) (sid : Option String)
    (k : String) (v v0 : OptVal)
    (hth : truthy ((options "_is_thermal").getD (.b false)) = true)
    (hmem : (k, v) ∈ html_options)
    (hk : thermalRelevant k = true)
    (h0 : options k = some v0) :
    prepare_options options html_options sid k = some v0 ∧
      (v ≠ v0 → prepare_options options html_options sid k ≠ some v) := by
  have hck : k ≠ "cookie" := relevant_ne k "cookie" hk (by decide)
  have key : prepare_options options html_options sid k = some v0 := by
    rw [prepare_options_apply_thermal options html_options sid k hth hck,
      oupdate_thermalSettings_apply]
    by_cases e1 : k = "zoom"
    · subst e1
      show some ((options "zoom").getD OptVal.null) = some v0
      rw [h0]
      rfl
    rw [if_neg e1]
    by_cases e2 : k = "dpi"
    · subst e2
      show some ((options "dpi").getD OptVal.null) = some v0
      rw [h0]
      rfl
    rw [if_neg e2]
    by_cases e3 : k = "page-height"
    · subst e3
      show some ((options "page-height").getD OptVal.null) = some v0
      rw [h0]
      rfl
    rw [if_neg e3]
    by_cases e4 : k = "page-width"
    · subst e4
      show some ((options "page-width").getD OptVal.null) = some v0
      rw [h0]
      rfl
    rw [if_neg e4]
    by_cases e5 : k = "margin-right"
    · subst e5
      show some ((options "margin-right").getD (OptVal.s "0mm")) = some v0
      rw [h0]
      rfl
    rw [if_neg e5]
    by_cases e6 : k = "margin-left"
    · subst e6
      show some ((options "margin-left").getD (OptVal.s "0mm")) = some v0
      rw [h0]
      rfl
    rw [if_neg e6]
    by_cases e7 : k = "margin-bottom"
    · subst e7
      show some ((options "margin-bottom").getD (OptVal.s "0mm")) = some v0
      rw [h0]
      rfl
    rw [if_neg e7]
    by_cases e8 : k = "margin-top"
    · subst e8
      show some ((options "margin-top").getD (OptVal.s "0mm")) = some v0
      rw [h0]
      rfl
    rw [if_neg e8]
    rw [thermalHtmlMerge_apply_of_relevant _ _ _ hk, oupdate_baseInjection_apply]
    rw [if_neg (relevant_ne k "encoding" hk (by decide)),
      if_neg (relevant_ne k "quiet" hk (by decide)),
      if_neg (relevant_ne k "images" hk (by decide)),
      if_neg (relevant_ne k "background" hk (by decide)),
      if_neg (relevant_ne k "print-media-type" hk (by decide))]
    rw [opop_apply, if_neg (relevant_ne k "_is_thermal" hk (by decide))]
    exact h0
  refine ⟨key, fun hne hc => hne ?_⟩
  rw [key] at hc
  exact (Option.some.inj hc).symm

/-- Witness for C1: a thermal options set whose `page-width` survives an
HTML directive that tries to override it. -/
theorem C1_thermal_protection_witness :
    prepare_options (ofList [("page-width", OptVal.s "80mm"), ("_is_thermal", OptVal.b true)])
        [("margin-top", OptVal.s "30mm"), ("page-width", OptVal.s "210mm")] none "page-width"
      = some (OptVal.s "80mm") :=
  (C1_thermal_protection
    (ofList [("page-width", OptVal.s "80mm"), ("_is_thermal", OptVal.b true)])
    [("margin-top", OptVal.s "30mm"), ("page-width", OptVal.s "210mm")] none
    "page-width" (OptVal.s "210mm") (OptVal.s "80mm")
    (by decide) (by decide) (by decide) (by decide)).1

/-- C4 counterexample: the source pops the marker from the input mapping
before the HTML merge and never re-strips it, so an extracted
`_is_thermal` directive (the extractor is untrusted per the spec) is
merged back and reaches the engine invocation, falsifying "the thermal
marker key is absent from the options mapping passed to the engine". -/
theorem C4_marker_reaches_engine_cex :
    engine_options (ofList [("_is_thermal", OptVal.b true)])
        [("_is_thermal", OptVal.s "1")] none false "_is_thermal"
      = some (OptVal.s "1") := by
  decide

/-- C4 (amended): the marker present in the input options mapping is
always consumed and stripped, and the key is absent from the options at
the engine invocation whenever the HTML-embedded directives do not
themselves carry an `_is_thermal` key. -/
theorem C4_marker_stripped (options : Options)
    (html_options : List (String × OptVal)) (sid : Option String) (g : Bool)
    (hclean : ∀ p ∈ html_options, p.1 ≠ "_is_thermal") :
    engine_options options html_options sid g "_is_thermal" = none := by
  have hpre : prepare_options options html_options sid "_is_thermal" = none := by
    cases hb : truthy ((options "_is_thermal").getD (.b false)) with
    | true =>
      rw [prepare_options_apply_thermal options html_options sid _ hb (by decide),
        oupdate_thermalSettings_apply]
      show thermalHtmlMerge (oupdate (opop options "_is_thermal") baseInjection)
          html_options "_is_thermal" = none
      rw [thermalHtmlMerge_apply_notin _ _ _ hclean, oupdate_baseInjection_apply]
      rfl
    | false =>
      rw [prepare_options_apply_nonthermal options html_options sid _ hb (by decide),
        oupdate_apply_notin _ _ _ hclean,
        defaultMargins_apply_ne _ _ (by decide) (by decide) (by decide) (by decide),
        oupdate_baseInjection_apply]
      rfl
  cases g with
  | true => exact hpre
  | false => exact hpre

/-- Witness for C4 (amended): a thermal option set with clean HTML
directives reaches the engine without the marker. -/
theorem C4_marker_stripped_witness :
    engine_options (ofList [("_is_thermal", OptVal.b true)])
        [("margin-top", OptVal.s "30mm")] none true "_is_thermal" = none :=
  C4_marker_stripped (ofList [("_is_thermal", OptVal.b true)])
    [("margin-top", OptVal.s "30mm")] none true (by decide)

/-- C2: evaluation at the failing input of the claim.  The engine raises a
recognized transient content error after producing real bytes, yet
`get_pdf` raises the user-facing "broken image links" error instead of
assembling those pages: the raising call never assigns `filedata`, so
the partial-recovery branch guarded by `if not filedata` is dead. -/
theorem C2_partial_failure_throws :
    get_pdf oempty [] none true
        (fun _ => EngineResult.raises "ContentNotFoundError" [37, 42])
        (fun b => [b.length]) (fun w => w.pages) (some ⟨[], none⟩)
      = GetPdfResult.thrown "PDF generation failed because of broken image links" := rfl

/-- C10: with an existing output accumulator and a successful render,
the parsed pages are appended to the accumulator and the accumulator
itself is returned (not serialized bytes), and its encryption state is
untouched even when a `password` option is present in `options`. -/
theorem C10_output_accumulator_path (options : Options)
    (html_options : List (String × OptVal)) (sid : Option String) (g : Bool)
    (filedata : List Nat) (parse : List Nat → List PdfPage)
    (serialize : PdfWriter → List Nat) (w : PdfWriter) :
    get_pdf options html_options sid g (fun _ => EngineResult.ok filedata)
        parse serialize (some w)
      = GetPdfResult.writer ⟨w.pages ++ parse filedata, w.encryptedWith⟩ := rfl

/-- C3: whenever the crop pipeline fails — PyMuPDF missing, inspection
raising, or serialization raising — `crop_pdf_whitespace` returns its
input bytes unchanged and propagates no error. -/
theorem C3_crop_failure_transparent (fitz : Option FitzModule) (b : List Nat)
    (h : cropFails fitz b) : crop_pdf_whitespace fitz b = b := by
  cases fitz with
  | none => rfl
  | some f =>
    replace h : (match f.openDoc b with
        | Except.error _ => True
        | Except.ok pages => ∃ e, f.tobytes (pages.map cropPage) = Except.error e) := h
    show (match f.openDoc b with
        | Except.error _ => b
        | Except.ok pages =>
          match f.tobytes (pages.map cropPage) with
          | Except.error _ => b
          | Except.ok out => out) = b
    cases hopen : f.openDoc b with
    | error e => rfl
    | ok pages =>
      rw [hopen] at h
      obtain ⟨e, he⟩ := h
      show (match f.tobytes (pages.map cropPage) with
        | Except.error _ => b
        | Except.ok out => out) = b
      rw [he]

/-- Witness for C3: the import-failure path returns the input bytes. -/
theorem C3_crop_failure_transparent_witness :
    crop_pdf_whitespace none [1, 2, 3] = [1, 2, 3] :=
  C3_crop_failure_transparent none [1, 2, 3] trivial

/-- C7 counterexample: a page whose content ends 25 points short of the
page bottom — more than the 20-point threshold of the claim — is NOT cropped,
because the source first adds a 15-point buffer and only crops when the
remaining whitespace still exceeds 20 points. -/
theorem C7_gap_over_20_not_cropped_cex :
    cropPage ⟨⟨0, 0, 80, 100⟩, [⟨some ⟨0, 0, 50, 75⟩, none⟩], none⟩
      = ⟨⟨0, 0, 80, 100⟩, [⟨some ⟨0, 0, 50, 75⟩, none⟩], none⟩ ∧
    (20 : ℚ) < (⟨0, 0, 80, 100⟩ : Rect).height - contentMaxY [⟨some ⟨0, 0, 50, 75⟩, none⟩] := by
  constructor
  · norm_num [cropPage, contentMaxY, Rect.height, max_def]
  · norm_num [contentMaxY, Rect.height, max_def]

/-- C7 (amended): a page with content (`max_y > 0`) is cropped — its
crop box rewritten to end 15 points below the content — exactly when the
content ends more than 35 points short of the page bottom (the 20-point
whitespace threshold is applied after adding the 15-point buffer); a
page whose content reaches within 35 points of the bottom (in
particular within 20) is left unmodified. -/
theorem C7_crop_threshold (page : FitzPage)
    (hb : page.blocks ≠ [])
    (hy : 0 < contentMaxY page.blocks) :
    (35 < page.rect.height - contentMaxY page.blocks →
      cropPage page =
        { page with
          cropbox := some ⟨page.rect.x0, page.rect.y0, page.rect.x1,
            contentMaxY page.blocks + 15⟩ }) ∧
    (page.rect.height - contentMaxY page.blocks ≤ 35 → cropPage page = page) := by
  have hbe : page.blocks.isEmpty = false := by
    cases hpb : page.blocks with
    | nil => exact absurd hpb hb
    | cons x xs => rfl
  simp only [cropPage]
  rw [if_neg (show ¬(page.blocks.isEmpty = true) by simp [hbe])]
  rw [if_pos hy]
  refine ⟨fun h35 => ?_, fun h35 => ?_⟩
  · rw [if_pos (show (20 : ℚ) < page.rect.height - (contentMaxY page.blocks + 15) by
      linarith)]
  · rw [if_neg (show ¬((20 : ℚ) < page.rect.height - (contentMaxY page.blocks + 15)) by
      intro hc; linarith)]

/-- Witness for C7 (amended): content ending 100 points short of a
200-point page is cropped to 115 points. -/
theorem C7_crop_threshold_witness :
    cropPage ⟨⟨0, 0, 80, 200⟩, [⟨some ⟨0, 0, 50, 100⟩, none⟩], none⟩
      = ⟨⟨0, 0, 80, 200⟩, [⟨some ⟨0, 0, 50, 100⟩, none⟩], some ⟨0, 0, 80, (115 : ℚ)⟩⟩ := by
  have h := (C7_crop_threshold ⟨⟨0, 0, 80, 200⟩, [⟨some ⟨0, 0, 50, 100⟩, none⟩], none⟩
      (by decide) (by norm_num [contentMaxY, max_def])).1
      (by norm_num [contentMaxY, Rect.height, max_def])
  rw [h]
  norm_num [contentMaxY, max_def]
